import Mathlib

/-!
Verification of the invoice system core: the invoice calculator
(order-form subtotal/discount/total), the sequential invoice-number
allocator backed by a persistent counter, the monetary formatter, the
PDF document renderer's input sanitization, and the POST /invoices
handler with its duplicate-number conflict and items-insert rollback.

JavaScript numbers are embedded as rationals, localStorage state as an
optional stored counter value, and fallible store operations as Except.
-/

namespace Invoice

/-! ## Decimal rendering of natural numbers

Embeds the JavaScript `Number.prototype.toString()` for non-negative
integers (most-significant digit first) and `String.prototype.padStart`.
-/

/-- The character for a single decimal digit, as in ASCII. -/
def digitChar (n : Nat) : Char := Char.ofNat (48 + n)

/-- Fuel-indexed decimal rendering; with fuel greater than the number it
produces the usual most-significant-first digit list. -/
def natReprAux : Nat → Nat → List Char
  | 0, _ => []
  | fuel + 1, n =>
    if n < 10 then [digitChar n]
    else natReprAux fuel (n / 10) ++ [digitChar (n % 10)]

/-- Decimal rendering of a natural number, as `toString()` produces. -/
def natRepr (n : Nat) : List Char := natReprAux (n + 1) n

/-- The numeric value of a decimal digit character. -/
def digitVal (c : Char) : Nat := c.toNat - 48

/-- The number denoted by a most-significant-first digit list. -/
def evalDigits (l : List Char) : Nat :=
  l.foldl (fun a c => 10 * a + digitVal c) 0

/-- `String.prototype.padStart(k, c)` on a character list. -/
def padStart (k : Nat) (c : Char) (l : List Char) : List Char :=
  List.replicate (k - l.length) c ++ l

/-! ## The invoice-number allocator (src/utils/invoice-counter.ts)

The localStorage cell holding the counter is modelled as `Option Nat`:
`none` when the key is absent, `some n` when the decimal string for `n`
is stored.  The allocation-time calendar date is a `(fullYear, getMonth)`
pair passed explicitly.
-/

/-- The allocation-time calendar date: `getFullYear()` and the 0-based
`getMonth()` of `new Date()`. -/
structure JSDate where
  fullYear : Nat
  monthIndex : Nat
deriving DecidableEq

/-- The stored counter cell (localStorage under the counter key). -/
abbrev Store := Option Nat

/-- `getCurrentCounter`: the stored value, or 1 when nothing is stored. -/
def getCurrentCounter (s : Store) : Nat :=
  match s with
  | some n => n
  | none => 1

/-- `incrementCounter`: read the current value, persist its successor,
and return the pre-increment value. -/
def incrementCounter (s : Store) : Nat × Store :=
  let current := getCurrentCounter s
  (current, some (current + 1))

/-- The code string `INV-${year}-${month}-${counter padded to 4}` built
by `generateInvoiceNumber` / `getCurrentInvoiceNumber`, where the month
is `getMonth() + 1` zero-padded to two digits. -/
def invoiceCode (d : JSDate) (counter : Nat) : String :=
  ⟨("INV-".data ++ natRepr d.fullYear ++ ['-'] ++
      padStart 2 '0' (natRepr (d.monthIndex + 1)) ++ ['-']) ++
    padStart 4 '0' (natRepr counter)⟩

/-- `generateInvoiceNumber`: increment the counter and render the code
for the pre-increment value with the allocation-time date. -/
def generateInvoiceNumber (d : JSDate) (s : Store) : String × Store :=
  let r := incrementCounter s
  (invoiceCode d r.1, r.2)

/-- `getCurrentInvoiceNumber`: render the code for the current counter
without writing to the store. -/
def getCurrentInvoiceNumber (d : JSDate) (s : Store) : String :=
  invoiceCode d (getCurrentCounter s)

/-- `resetCounter`: store 1. -/
def resetCounter (_s : Store) : Store := some 1

/-- Recover the counter from a code: the value of its maximal trailing
digit run (everything after the last dash). -/
def counterOfCode (code : String) : Nat :=
  evalDigits ((code.data.reverse.takeWhile Char.isDigit).reverse)

/-- The codes produced by a sequence of `generateInvoiceNumber` calls,
each at its own calendar date, threading the stored counter. -/
def allocateRun : Store → List JSDate → List String
  | _, [] => []
  | s, d :: ds =>
    let r := generateInvoiceNumber d s
    r.1 :: allocateRun r.2 ds

/-- An operation on the counter: a UI preview read or an allocation. -/
inductive CounterOp where
  | peekOp
  | allocateOp
deriving DecidableEq

/-- Run a sequence of counter operations at a fixed calendar date,
collecting the produced codes and the final stored state. -/
def runOps (d : JSDate) : Store → List CounterOp → List String × Store
  | s, [] => ([], s)
  | s, .peekOp :: ops =>
    let r := runOps d s ops
    (getCurrentInvoiceNumber d s :: r.1, r.2)
  | s, .allocateOp :: ops =>
    let g := generateInvoiceNumber d s
    let r := runOps d g.2 ops
    (g.1 :: r.1, r.2)

/-! ## The invoice calculator (src/components/order-form.tsx)

Line items as edited in the order form; JavaScript numbers are embedded
as rationals.
-/

/-- A line item of the order form. -/
structure OrderItem where
  id : String
  name : String
  quantity : ℚ
  rate : ℚ
deriving DecidableEq

/-- `subtotal`: the left fold accumulating `quantity * rate` over the
item sequence in order. -/
def subtotal (items : List OrderItem) : ℚ :=
  items.foldl (fun sum item => sum + item.quantity * item.rate) 0

/-- `discountAmount = subtotal * discount / 100`. -/
def discountAmount (s discount : ℚ) : ℚ := s * discount / 100

/-- `total = subtotal - discountAmount`. -/
def total (s da : ℚ) : ℚ := s - da

/-- The subtotal as the spec words it for out-of-range inputs: negative
quantity and rate values clamped to 0.  Stated from the spec, for
comparison with `subtotal` as translated from the source. -/
def subtotalClampedSpec (items : List OrderItem) : ℚ :=
  items.foldl (fun sum item => sum + max item.quantity 0 * max item.rate 0) 0

/-- The form's numeric input coercion `parse(...) || 0`: a failed parse
(NaN, embedded as `none`) becomes 0. -/
def parseOr0 (v : Option ℚ) : ℚ :=
  match v with
  | some q => q
  | none => 0

/-! ## The monetary formatter (src/components/pdf-invoice.tsx)

`formatCurrency` guards against non-number and NaN inputs, then calls
`Intl.NumberFormat("en-IN", currency INR, maximumFractionDigits 2)`.
The Intl call is embedded by its documented behaviour: a leading sign
for negative amounts, the rupee symbol, the integer part with Indian
digit grouping (rightmost three digits, then groups of two), a decimal
point and exactly two fraction digits, rounding half away from zero.
-/

/-- A JavaScript value reaching `formatCurrency`: a finite number, NaN
(which has `typeof` "number"), undefined, or a string. -/
inductive JSVal where
  | num (q : ℚ)
  | nan
  | undef
  | str (s : String)
deriving DecidableEq

/-- `typeof v === "number"` (true for NaN as well). -/
def isNumberType : JSVal → Bool
  | .num _ => true
  | .nan => true
  | _ => false

/-- The amount in paise: the absolute amount times 100, rounded half
away from zero. -/
def paise (q : ℚ) : Nat := (⌊|q| * 100 + 1 / 2⌋).toNat

/-- Group a reversed digit list in twos, comma-separating groups while
more than two digits remain. -/
def groupTwosRev : List Char → List Char
  | a :: b :: c :: rest => a :: b :: ',' :: groupTwosRev (c :: rest)
  | l => l

/-- Indian grouping on a reversed digit list: the rightmost three
digits, then groups of two. -/
def indianGroupingRev : List Char → List Char
  | a :: b :: c :: d :: rest => a :: b :: c :: ',' :: groupTwosRev (d :: rest)
  | l => l

/-- Indian digit grouping of a most-significant-first digit list. -/
def indianGrouping (l : List Char) : List Char :=
  (indianGroupingRev l.reverse).reverse

/-- The en-IN INR rendering of a finite amount. -/
def intlFormatINR (q : ℚ) : String :=
  let n := paise q
  (if q < 0 then "-" else "") ++ "₹" ++
    (⟨indianGrouping (natRepr (n / 100))⟩ : String) ++ "." ++
    (⟨padStart 2 '0' (natRepr (n % 100))⟩ : String)

/-- `formatCurrency`: the zero-amount string for a non-number or NaN
input, the Intl rendering otherwise. -/
def formatCurrency : JSVal → String
  | .num q => intlFormatINR q
  | _ => "₹0.00"

/-! ## The document renderer's sanitization (src/components/pdf-invoice.tsx)

`validateInvoiceData` runs once before layout.  Falsy-or-present field
states of the loose input are modelled explicitly: a `Date` field can be
absent (falsy), an Invalid Date object (truthy), or a valid date; the
items field can be a non-array value or an array whose entries may fail
the `item && typeof item === "object"` filter.
-/

/-- A JavaScript `Date`-typed field: absent (undefined/null), an
Invalid Date object, or a valid date with an epoch timestamp. -/
inductive JSDateVal where
  | undef
  | invalid
  | valid (t : Int)
deriving DecidableEq

/-- The items field: a non-array value (null, undefined, ...) or an
array whose entries are either well-formed items or non-objects. -/
inductive JSItemsVal where
  | notArray
  | arr (l : List (Option OrderItem))
deriving DecidableEq

/-- The loose input of the renderer. -/
structure InvoiceData where
  customerName : Option String
  date : JSDateVal
  items : JSItemsVal
  discount : JSVal
  subtotal : JSVal
  discountAmount : JSVal
  total : JSVal
  invoiceNumber : Option String
deriving DecidableEq

/-- The fully-defaulted output of `validateInvoiceData`. -/
structure ValidatedInvoiceData where
  customerName : String
  date : JSDateVal
  items : List OrderItem
  discount : JSVal
  subtotal : JSVal
  discountAmount : JSVal
  total : JSVal
  invoiceNumber : String
deriving DecidableEq

/-- The `x || dflt` idiom on a string field: absent or empty gives the
default. -/
def jsOrStr (v : Option String) (dflt : String) : String :=
  match v with
  | none => dflt
  | some s => if s = "" then dflt else s

/-- The `typeof x === "number" ? x : 0` idiom: a number-typed value
(NaN included) passes through, anything else becomes 0. -/
def sanitizeNum : JSVal → JSVal
  | .num q => .num q
  | .nan => .nan
  | _ => .num 0

/-- `validateInvoiceData`, with `now` the timestamp of `new Date()`. -/
def validateInvoiceData (now : Int) (data : InvoiceData) :
    ValidatedInvoiceData :=
  { customerName := jsOrStr data.customerName "Customer Name"
    date :=
      match data.date with
      | .undef => .valid now
      | d => d
    items :=
      match data.items with
      | .notArray => []
      | .arr l => l.filterMap id
    discount := sanitizeNum data.discount
    subtotal := sanitizeNum data.subtotal
    discountAmount := sanitizeNum data.discountAmount
    total := sanitizeNum data.total
    invoiceNumber := jsOrStr data.invoiceNumber "INV-0001" }

/-- One rendered row of the line-item table: the description text, the
quantity cell value, and the formatted rate and amount strings. -/
structure TableRow where
  description : String
  qty : ℚ
  rate : String
  amount : String
deriving DecidableEq

/-- The row rendered for one item. -/
def itemRow (item : OrderItem) : TableRow :=
  { description := jsOrStr (some item.name) "Unnamed Item"
    qty := item.quantity
    rate := formatCurrency (.num item.rate)
    amount := formatCurrency (.num (item.quantity * item.rate)) }

/-- The body rows of the table: one per item when any exist, otherwise
the single placeholder row with the literal zero-amount strings. -/
def itemRows (items : List OrderItem) : List TableRow :=
  if items.length > 0 then items.map itemRow
  else [{ description := "No items", qty := 0, rate := "₹0.00",
          amount := "₹0.00" }]

/-- The summary block strings: subtotal, discount amount, and total,
each through `formatCurrency`. -/
def renderSummary (v : ValidatedInvoiceData) : String × String × String :=
  (formatCurrency v.subtotal, formatCurrency v.discountAmount,
    formatCurrency v.total)

/-! ## The POST /invoices handler (src/app/api/invoices/route.ts)

The relational store follows the schema in the repository's SQL script:
`invoices` with a unique constraint on `invoice_number` (a violated
insert fails with the PostgreSQL code 23505) and `invoice_items` with a
cascading foreign key.  Generated row ids are modelled by a fresh-id
counter; whether the items insert fails is a parameter of the run.
-/

/-- A persisted invoice header row. -/
structure InvoiceHeader where
  id : Nat
  invoice_number : String
  customer_name : String
  subtotal : ℚ
  discount : ℚ
  discount_amount : ℚ
  total : ℚ
  status : String
deriving DecidableEq

/-- A persisted invoice item row. -/
structure InvoiceItemRow where
  invoice_id : Nat
  item_id : String
  name : String
  quantity : ℚ
  rate : ℚ
  total : ℚ
deriving DecidableEq

/-- The relational store: both tables and the fresh-id source. -/
structure Database where
  nextId : Nat
  invoices : List InvoiceHeader
  invoice_items : List InvoiceItemRow
deriving DecidableEq

/-- The parsed POST body; optional fields model absent JSON keys. -/
structure PostBody where
  invoice_number : String
  customer_name : String
  invoice_date : Option Int
  items : Option (List OrderItem)
  subtotal : ℚ
  discount : Option ℚ
  discount_amount : Option ℚ
  total : ℚ
  status : Option String
deriving DecidableEq

/-- The handler's required-field check: a falsy invoice number,
customer name, date or items value, or an empty items array. -/
def missingRequired (b : PostBody) : Bool :=
  decide (b.invoice_number = "") || decide (b.customer_name = "") ||
    decide (b.invoice_date = none) || decide (b.items = none) ||
    decide ((b.items.getD []).length = 0)

/-- Insert into `invoices` under the unique constraint on
`invoice_number`: the PostgreSQL unique-violation code on conflict,
otherwise the stored row (with its generated id) and the new state. -/
def invoicesInsert (db : Database) (h : InvoiceHeader) :
    Except String (InvoiceHeader × Database) :=
  if db.invoices.any (fun r => r.invoice_number == h.invoice_number) then
    .error "23505"
  else
    .ok (h, { db with nextId := db.nextId + 1,
                      invoices := db.invoices ++ [h] })

/-- Insert into `invoice_items`; `fails` selects the failing outcome of
this external call. -/
def itemsInsert (db : Database) (rows : List InvoiceItemRow)
    (fails : Bool) : Except String Database :=
  if fails then .error "items insert failed"
  else .ok { db with invoice_items := db.invoice_items ++ rows }

/-- Delete an invoice header by id; the foreign key cascades to its
item rows. -/
def invoicesDelete (db : Database) (id : Nat) : Database :=
  { db with invoices := db.invoices.filter (fun r => r.id != id),
            invoice_items :=
              db.invoice_items.filter (fun r => r.invoice_id != id) }

/-- The handler's HTTP response. -/
structure PostResponse where
  status : Nat
  success : Bool
deriving DecidableEq

/-- The header payload the handler builds from the body, with the
store-generated id. -/
def newHeader (db : Database) (body : PostBody) : InvoiceHeader :=
  { id := db.nextId
    invoice_number := body.invoice_number
    customer_name := body.customer_name
    subtotal := body.subtotal
    discount := body.discount.getD 0
    discount_amount := body.discount_amount.getD 0
    total := body.total
    status := body.status.getD "draft" }

/-- The item-row payloads the handler builds from the body for the
created invoice id. -/
def newItemRows (invId : Nat) (body : PostBody) : List InvoiceItemRow :=
  (body.items.getD []).map fun it =>
    { invoice_id := invId
      item_id := it.id
      name := it.name
      quantity := it.quantity
      rate := it.rate
      total := it.quantity * it.rate }

/-- The POST /invoices handler: validate, insert the header, insert the
items, and on an items failure delete the header before responding. -/
def postInvoices (db : Database) (body : PostBody) (itemsFail : Bool) :
    PostResponse × Database :=
  if missingRequired body then ({ status := 400, success := false }, db)
  else
    match invoicesInsert db (newHeader db body) with
    | .error code =>
      if code = "23505" then ({ status := 409, success := false }, db)
      else ({ status := 500, success := false }, db)
    | .ok (inv2, db1) =>
      match itemsInsert db1 (newItemRows inv2.id body) itemsFail with
      | .error _ =>
        ({ status := 500, success := false }, invoicesDelete db1 inv2.id)
      | .ok db2 => ({ status := 201, success := true }, db2)

/-! ## Concrete scenario inputs -/

/-- The malformed renderer input of the totality scenario: null items,
undefined customer name, a string discount, and no date. -/
def sanitizeScenarioA : InvoiceData :=
  { customerName := none
    date := .undef
    items := .notArray
    discount := .str "bad"
    subtotal := .undef
    discountAmount := .undef
    total := .undef
    invoiceNumber := none }

/-- A renderer input carrying an Invalid Date object and other
malformed fields. -/
def sanitizeScenarioB : InvoiceData :=
  { customerName := some ""
    date := .invalid
    items := .notArray
    discount := .undef
    subtotal := .str "x"
    discountAmount := .undef
    total := .str "y"
    invoiceNumber := some "" }

/-- A store already holding one invoice, used to exercise the duplicate
path of the POST handler. -/
def dbW : Database :=
  { nextId := 1
    invoices := [{ id := 0, invoice_number := "INV-2024-01-0001",
                   customer_name := "A", subtotal := 0, discount := 0,
                   discount_amount := 0, total := 0, status := "draft" }]
    invoice_items := [] }

/-- A POST body whose invoice number collides with the stored one. -/
def bodyW : PostBody :=
  { invoice_number := "INV-2024-01-0001"
    customer_name := "B"
    invoice_date := some 0
    items := some [⟨"1", "x", 1, 2⟩]
    subtotal := 2
    discount := none
    discount_amount := none
    total := 2
    status := none }

/-- The same POST body with a fresh invoice number. -/
def bodyW2 : PostBody :=
  { bodyW with invoice_number := "INV-2024-01-0002" }

/-! ## Lemmas: decimal rendering -/

theorem digitVal_digitChar {m : Nat} (h : m < 10) :
    digitVal (digitChar m) = m := by
  interval_cases m <;> decide

theorem isDigit_digitChar {m : Nat} (h : m < 10) :
    (digitChar m).isDigit = true := by
  interval_cases m <;> decide

theorem eval_append_digit (l : List Char) (c : Char) :
    evalDigits (l ++ [c]) = 10 * evalDigits l + digitVal c := by
  simp [evalDigits, List.foldl_append]

theorem eval_natReprAux :
    ∀ fuel n, n < fuel → evalDigits (natReprAux fuel n) = n := by
  intro fuel
  induction fuel with
  | zero => intro n h; exact absurd h (Nat.not_lt_zero n)
  | succ fuel ih =>
    intro n h
    by_cases h10 : n < 10
    · simp [natReprAux, h10, evalDigits, digitVal_digitChar h10]
    · have hdiv : n / 10 < fuel := by omega
      have hmod : n % 10 < 10 := Nat.mod_lt _ (by omega)
      simp only [natReprAux, if_neg h10]
      rw [eval_append_digit, ih _ hdiv, digitVal_digitChar hmod]
      omega

theorem eval_natRepr (n : Nat) : evalDigits (natRepr n) = n :=
  eval_natReprAux (n + 1) n (Nat.lt_succ_self n)

theorem natRepr_injective : Function.Injective natRepr := by
  intro a b h
  have := eval_natRepr a
  rw [h, eval_natRepr] at this
  omega

theorem isDigit_mem_natReprAux :
    ∀ fuel n, ∀ c ∈ natReprAux fuel n, c.isDigit = true := by
  intro fuel
  induction fuel with
  | zero => intro n c hc; simp [natReprAux] at hc
  | succ fuel ih =>
    intro n c hc
    by_cases h10 : n < 10
    · simp only [natReprAux, if_pos h10, List.mem_singleton] at hc
      subst hc
      exact isDigit_digitChar h10
    · simp only [natReprAux, if_neg h10, List.mem_append,
        List.mem_singleton] at hc
      rcases hc with hc | hc
      · exact ih _ c hc
      · subst hc
        exact isDigit_digitChar (Nat.mod_lt _ (by omega))

theorem isDigit_mem_natRepr (n : Nat) :
    ∀ c ∈ natRepr n, c.isDigit = true :=
  isDigit_mem_natReprAux (n + 1) n

theorem eval_replicate_zero_append :
    ∀ (k : Nat) (l : List Char),
      evalDigits (List.replicate k '0' ++ l) = evalDigits l := by
  intro k
  induction k with
  | zero => intro l; simp
  | succ k ih =>
    intro l
    have h0 : digitVal '0' = 0 := by decide
    simp only [List.replicate_succ, List.cons_append, evalDigits,
      List.foldl_cons, h0, Nat.mul_zero, Nat.add_zero, Nat.zero_add]
    exact ih l

theorem eval_padStart_natRepr (k n : Nat) :
    evalDigits (padStart k '0' (natRepr n)) = n := by
  rw [padStart, eval_replicate_zero_append, eval_natRepr]

theorem isDigit_mem_padStart_natRepr (k n : Nat) :
    ∀ c ∈ padStart k '0' (natRepr n), c.isDigit = true := by
  intro c hc
  rw [padStart, List.mem_append] at hc
  rcases hc with hc | hc
  · have hc0 : c = '0' := List.eq_of_mem_replicate hc
    subst hc0
    decide
  · exact isDigit_mem_natRepr n c hc

theorem takeWhile_append_of_all {p : Char → Bool} :
    ∀ (l1 : List Char) (x : Char) (l2 : List Char),
      (∀ a ∈ l1, p a = true) → p x = false →
      List.takeWhile p (l1 ++ x :: l2) = l1 := by
  intro l1
  induction l1 with
  | nil =>
    intro x l2 _ hx
    simp [List.takeWhile_cons, hx]
  | cons a l ih =>
    intro x l2 h hx
    have ha : p a = true := h a (List.mem_cons_self a l)
    simp only [List.cons_append, List.takeWhile_cons, ha, if_true]
    rw [ih x l2 (fun b hb => h b (List.mem_cons_of_mem a hb)) hx]

theorem trailing_digit_run (Y L : List Char)
    (hL : ∀ a ∈ L, a.isDigit = true) :
    (((Y ++ '-' :: L).reverse).takeWhile Char.isDigit).reverse = L := by
  rw [List.reverse_append, List.reverse_cons, List.append_assoc,
    List.singleton_append]
  rw [takeWhile_append_of_all L.reverse '-' Y.reverse
    (fun a ha => hL a (List.mem_reverse.mp ha)) (by decide)]
  exact List.reverse_reverse L

/-! ## Lemmas: two-digit padding -/

theorem natReprAux_small {fuel n : Nat} (h : n < 10) (hf : 0 < fuel) :
    natReprAux fuel n = [digitChar n] := by
  cases fuel with
  | zero => omega
  | succ fuel => simp [natReprAux, h]

theorem pad2_natRepr_lt100 {m : Nat} (h : m < 100) :
    ∃ d1 d2, padStart 2 '0' (natRepr m) = [d1, d2] ∧
      d1.isDigit = true ∧ d2.isDigit = true := by
  by_cases h10 : m < 10
  · refine ⟨'0', digitChar m, ?_, by decide, isDigit_digitChar h10⟩
    rw [natRepr, natReprAux_small h10 (by omega)]
    rfl
  · have hq : m / 10 < 10 := by omega
    refine ⟨digitChar (m / 10), digitChar (m % 10), ?_,
      isDigit_digitChar hq, isDigit_digitChar (Nat.mod_lt _ (by omega))⟩
    rw [natRepr]
    simp only [natReprAux, if_neg h10]
    rw [natReprAux_small hq (by omega)]
    rfl

/-! ## Lemmas: the allocator -/

theorem counterOfCode_invoiceCode (d : JSDate) (c : Nat) :
    counterOfCode (invoiceCode d c) = c := by
  have hdata : (invoiceCode d c).data =
      ("INV-".data ++ natRepr d.fullYear ++ ['-'] ++
          padStart 2 '0' (natRepr (d.monthIndex + 1))) ++
        '-' :: padStart 4 '0' (natRepr c) := by
    simp [invoiceCode, List.append_assoc]
  rw [counterOfCode, hdata,
    trailing_digit_run _ _ (isDigit_mem_padStart_natRepr 4 c),
    eval_padStart_natRepr]

theorem allocateRun_cons (s : Store) (d : JSDate) (ds : List JSDate) :
    allocateRun s (d :: ds) =
      invoiceCode d (getCurrentCounter s) ::
        allocateRun (some (getCurrentCounter s + 1)) ds := rfl

theorem le_counterOfCode_mem :
    ∀ (ds : List JSDate) (n : Nat) (code : String),
      code ∈ allocateRun (some n) ds → n ≤ counterOfCode code := by
  intro ds
  induction ds with
  | nil => intro n code h; simp [allocateRun] at h
  | cons d ds ih =>
    intro n code h
    rw [allocateRun_cons] at h
    rcases List.mem_cons.mp h with h | h
    · subst h
      rw [counterOfCode_invoiceCode]
      simp [getCurrentCounter]
    · have hge := ih (n + 1) code (by simpa [getCurrentCounter] using h)
      omega

/-! ## Lemmas: the calculator -/

theorem foldl_subtotal (l : List OrderItem) :
    ∀ a : ℚ,
      l.foldl (fun sum item => sum + item.quantity * item.rate) a =
        a + (l.map (fun i => i.quantity * i.rate)).sum := by
  induction l with
  | nil => intro a; simp
  | cons x l ih =>
    intro a
    simp only [List.foldl_cons, List.map_cons, List.sum_cons, ih]
    ring

/-! ## Lemmas: the formatter at zero -/

theorem paise_zero : paise 0 = 0 := by
  have h : (|(0 : ℚ)| * 100 + 1 / 2) = 1 / 2 := by norm_num
  have h2 : ⌊(1 / 2 : ℚ)⌋ = 0 := by
    rw [Int.floor_eq_iff]
    norm_num
  rw [paise, h, h2]
  rfl

theorem formatCurrency_zero : formatCurrency (.num 0) = "₹0.00" := by
  have h : ¬ (0 : ℚ) < 0 := lt_irrefl 0
  simp only [formatCurrency, intlFormatINR, paise_zero, if_neg h]
  decide

/-! ## The claims -/

/-- C1: the calculator accumulates `quantity * rate` over the item
sequence in order, `discountAmount = subtotal * d / 100`,
`total = subtotal - discountAmount`; for items
(qty 2, rate 100), (qty 1, rate 50) and discount 10 it yields subtotal
250, discountAmount 25, total 225. -/
theorem calculator_totals_spec :
    (∀ items : List OrderItem,
      subtotal items = (items.map (fun i => i.quantity * i.rate)).sum) ∧
    (∀ s d : ℚ, discountAmount s d = s * d / 100) ∧
    (∀ s da : ℚ, total s da = s - da) ∧
    subtotal [⟨"1", "", 2, 100⟩, ⟨"2", "", 1, 50⟩] = 250 ∧
    discountAmount 250 10 = 25 ∧
    total 250 25 = 225 := by
  refine ⟨?_, fun s d => rfl, fun s da => rfl, ?_, ?_, ?_⟩
  · intro items
    simpa [subtotal] using foldl_subtotal items 0
  · norm_num [subtotal, List.foldl]
  · norm_num [discountAmount]
  · norm_num [total]

/-- C2: `generateInvoiceNumber` reads the persisted counter `n`,
returns the code for `n` at the allocation-time date, and persists
`n + 1`; with the counter at 7 in April 2024 it returns
INV-2024-04-0007 and leaves the counter at 8. -/
theorem allocate_sequential_spec :
    (∀ (d : JSDate) (n : Nat),
      generateInvoiceNumber d (some n) = (invoiceCode d n, some (n + 1))) ∧
    generateInvoiceNumber ⟨2024, 3⟩ (some 7) =
      ("INV-2024-04-0007", some 8) := by
  constructor
  · intro d n; rfl
  · decide

/-- C3: from any starting counter state, any sequence of
`generateInvoiceNumber` calls (each at its own calendar date) yields
pairwise-distinct codes. -/
theorem allocate_codes_distinct :
    ∀ (s : Store) (ds : List JSDate),
      List.Pairwise (fun a b => a ≠ b) (allocateRun s ds) := by
  have key : ∀ (ds : List JSDate) (s : Store),
      List.Pairwise (fun a b => a ≠ b) (allocateRun s ds) := by
    intro ds
    induction ds with
    | nil => intro s; simp [allocateRun]
    | cons d ds ih =>
      intro s
      rw [allocateRun_cons]
      refine List.Pairwise.cons ?_ (ih _)
      intro code hcode heq
      have h1 : getCurrentCounter s + 1 ≤ counterOfCode code :=
        le_counterOfCode_mem ds _ code hcode
      rw [← heq, counterOfCode_invoiceCode] at h1
      omega
  intro s ds
  exact key ds s

/-- C4: `getCurrentInvoiceNumber` returns exactly the code the next
`generateInvoiceNumber` call would return, and any number of preview
reads leaves the stored counter and every later result unchanged. -/
theorem peek_matches_next_allocate :
    (∀ (d : JSDate) (s : Store),
      getCurrentInvoiceNumber d s = (generateInvoiceNumber d s).1) ∧
    (∀ (d : JSDate) (s : Store) (k : Nat) (ops : List CounterOp),
      runOps d s (List.replicate k .peekOp ++ ops) =
        (List.replicate k (getCurrentInvoiceNumber d s) ++
            (runOps d s ops).1,
          (runOps d s ops).2)) := by
  constructor
  · intro d s; rfl
  · intro d s k ops
    induction k with
    | zero => simp [List.replicate]
    | succ k ih => simp [List.replicate_succ, runOps, ih]

/-- C8 counterexample: an item with negative quantity contributes its
signed product, not the clamped-to-zero contribution the claim states:
for the single item (qty -1, rate 100) the code's subtotal is -100
while the clamped subtotal is 0. -/
theorem subtotal_negative_not_clamped :
    subtotal [⟨"1", "widget", -1, 100⟩] = -100 ∧
    subtotalClampedSpec [⟨"1", "widget", -1, 100⟩] = 0 ∧
    subtotal [⟨"1", "widget", -1, 100⟩] ≠
      subtotalClampedSpec [⟨"1", "widget", -1, 100⟩] := by
  refine ⟨?_, ?_, ?_⟩ <;> norm_num [subtotal, subtotalClampedSpec, List.foldl]

/-- C8 amended: negative quantity or rate values are not clamped; every
item contributes its signed product `quantity * rate` to the subtotal,
and only a failed numeric parse is coerced to 0 at the form boundary. -/
theorem subtotal_signed_contribution :
    (∀ (item : OrderItem) (items : List OrderItem),
      subtotal (item :: items) =
        item.quantity * item.rate + subtotal items) ∧
    parseOr0 none = 0 ∧
    subtotal [⟨"1", "widget", -1, 100⟩] = -100 := by
  refine ⟨?_, rfl, ?_⟩
  · intro item items
    simp only [subtotal, List.foldl_cons]
    rw [foldl_subtotal, foldl_subtotal]
    ring
  · norm_num [subtotal, List.foldl]

/-- C5: the formatter returns the zero-amount string for NaN,
undefined and string inputs without raising, renders every finite
amount as an optional sign, the rupee symbol, the Indian-grouped
integer part, and exactly two fraction digits, and satisfies
format 0 = format NaN = format undefined. -/
theorem formatCurrency_total_spec :
    (formatCurrency .nan = "₹0.00" ∧ formatCurrency .undef = "₹0.00" ∧
      ∀ s : String, formatCurrency (.str s) = "₹0.00") ∧
    (formatCurrency (.num 0) = formatCurrency .nan ∧
      formatCurrency .nan = formatCurrency .undef) ∧
    (∀ q : ℚ, ∃ (sign : String) (d1 d2 : Char),
      formatCurrency (.num q) =
        sign ++ "₹" ++
          (⟨indianGrouping (natRepr (paise q / 100))⟩ : String) ++ "." ++
          (⟨[d1, d2]⟩ : String) ∧
      (sign = "" ∨ sign = "-") ∧ d1.isDigit = true ∧ d2.isDigit = true) := by
  refine ⟨⟨rfl, rfl, fun s => rfl⟩, ⟨formatCurrency_zero, rfl⟩, ?_⟩
  intro q
  obtain ⟨d1, d2, hpad, h1, h2⟩ :=
    pad2_natRepr_lt100 (Nat.mod_lt (paise q) (by omega))
  refine ⟨if q < 0 then "-" else "", d1, d2, ?_, ?_, h1, h2⟩
  · simp [formatCurrency, intlFormatINR, hpad]
  · by_cases hq : q < 0 <;> simp [hq]

/-- C9: with an empty item sequence the table body is exactly the one
placeholder row (No items, quantity 0, zero-amount strings), and the
end-to-end empty-list flow with discount 0 yields subtotal 0,
discountAmount 0, total 0 and renders all three as the zero string. -/
theorem empty_items_placeholder_spec :
    itemRows [] = [{ description := "No items", qty := 0,
                     rate := "₹0.00", amount := "₹0.00" }] ∧
    (itemRows []).length = 1 ∧
    subtotal [] = 0 ∧ discountAmount 0 0 = 0 ∧ total 0 0 = 0 ∧
    renderSummary (validateInvoiceData 0
      { customerName := some "Acme", date := .valid 0, items := .arr [],
        discount := .num 0, subtotal := .num (subtotal []),
        discountAmount := .num (discountAmount (subtotal []) 0),
        total := .num (total (subtotal []) (discountAmount (subtotal []) 0)),
        invoiceNumber := none }) = ("₹0.00", "₹0.00", "₹0.00") := by
  have hsub : subtotal [] = 0 := rfl
  have hda : discountAmount 0 0 = 0 := by norm_num [discountAmount]
  have ht : total 0 0 = 0 := by norm_num [total]
  refine ⟨rfl, rfl, hsub, hda, ht, ?_⟩
  simp only [renderSummary, validateInvoiceData, sanitizeNum, hsub, hda,
    ht, formatCurrency_zero]

/-- C6 counterexample: an Invalid Date value survives sanitization
unchanged instead of being replaced by the current date. -/
theorem validate_invalid_date_counterexample :
    (validateInvoiceData 0 sanitizeScenarioB).date = .invalid ∧
    JSDateVal.invalid ≠ JSDateVal.valid 0 :=
  ⟨rfl, by decide⟩

/-- C6 amended: sanitization maps an absent customer name to the
placeholder, an absent (falsy) date to the current date — an Invalid
Date object passes through unchanged — a non-array item list to the
empty sequence, and non-number-typed monetary fields to zero; the
scenario with null items, undefined customer name and a string discount
sanitizes fully to defaults. -/
theorem validate_sanitization_spec :
    ∀ (now : Int) (data : InvoiceData),
      ((data.customerName = none ∨ data.customerName = some "") →
        (validateInvoiceData now data).customerName = "Customer Name") ∧
      (data.date = .undef →
        (validateInvoiceData now data).date = .valid now) ∧
      (data.date = .invalid →
        (validateInvoiceData now data).date = .invalid) ∧
      (data.items = .notArray →
        (validateInvoiceData now data).items = []) ∧
      (isNumberType data.discount = false →
        (validateInvoiceData now data).discount = .num 0) ∧
      (isNumberType data.subtotal = false →
        (validateInvoiceData now data).subtotal = .num 0) ∧
      (isNumberType data.discountAmount = false →
        (validateInvoiceData now data).discountAmount = .num 0) ∧
      (isNumberType data.total = false →
        (validateInvoiceData now data).total = .num 0) ∧
      validateInvoiceData now sanitizeScenarioA =
        { customerName := "Customer Name", date := .valid now, items := [],
          discount := .num 0, subtotal := .num 0, discountAmount := .num 0,
          total := .num 0, invoiceNumber := "INV-0001" } := by
  intro now data
  refine ⟨?_, ?_, ?_, ?_, ?_, ?_, ?_, ?_, rfl⟩
  · rintro (h | h) <;> simp [validateInvoiceData, jsOrStr, h]
  · intro h; simp [validateInvoiceData, h]
  · intro h; simp [validateInvoiceData, h]
  · intro h; simp [validateInvoiceData, h]
  · intro h
    simp only [validateInvoiceData]
    cases hd : data.discount <;> simp_all [isNumberType, sanitizeNum]
  · intro h
    simp only [validateInvoiceData]
    cases hd : data.subtotal <;> simp_all [isNumberType, sanitizeNum]
  · intro h
    simp only [validateInvoiceData]
    cases hd : data.discountAmount <;> simp_all [isNumberType, sanitizeNum]
  · intro h
    simp only [validateInvoiceData]
    cases hd : data.total <;> simp_all [isNumberType, sanitizeNum]

/-- Witness for the amended sanitization theorem at concrete inputs. -/
theorem validate_sanitization_spec_witness :
    (validateInvoiceData 5 sanitizeScenarioA).customerName =
      "Customer Name" ∧
    (validateInvoiceData 5 sanitizeScenarioA).date = .valid 5 ∧
    (validateInvoiceData 5 sanitizeScenarioB).date = .invalid ∧
    (validateInvoiceData 5 sanitizeScenarioB).customerName =
      "Customer Name" ∧
    (validateInvoiceData 5 sanitizeScenarioB).items = [] ∧
    (validateInvoiceData 5 sanitizeScenarioA).discount = .num 0 ∧
    (validateInvoiceData 5 sanitizeScenarioB).subtotal = .num 0 ∧
    (validateInvoiceData 5 sanitizeScenarioB).discountAmount = .num 0 ∧
    (validateInvoiceData 5 sanitizeScenarioB).total = .num 0 :=
  ⟨(validate_sanitization_spec 5 sanitizeScenarioA).1 (Or.inl rfl),
    (validate_sanitization_spec 5 sanitizeScenarioA).2.1 rfl,
    (validate_sanitization_spec 5 sanitizeScenarioB).2.2.1 rfl,
    (validate_sanitization_spec 5 sanitizeScenarioB).1 (Or.inr rfl),
    (validate_sanitization_spec 5 sanitizeScenarioB).2.2.2.1 rfl,
    (validate_sanitization_spec 5 sanitizeScenarioA).2.2.2.2.1 rfl,
    (validate_sanitization_spec 5 sanitizeScenarioB).2.2.2.2.2.1 rfl,
    (validate_sanitization_spec 5 sanitizeScenarioB).2.2.2.2.2.2.1 rfl,
    (validate_sanitization_spec 5 sanitizeScenarioB).2.2.2.2.2.2.2.1 rfl⟩

/-- C10: an absent, undefined or empty invoice number sanitizes to the
hard-coded constant INV-0001. -/
theorem invoiceNumber_default_spec :
    ∀ (now : Int) (data : InvoiceData),
      (data.invoiceNumber = none ∨ data.invoiceNumber = some "") →
      (validateInvoiceData now data).invoiceNumber = "INV-0001" := by
  intro now data h
  rcases h with h | h <;> simp [validateInvoiceData, jsOrStr, h]

/-- Witness for the invoice-number default at a concrete input. -/
theorem invoiceNumber_default_spec_witness :
    (validateInvoiceData 0 sanitizeScenarioA).invoiceNumber =
      "INV-0001" :=
  invoiceNumber_default_spec 0 sanitizeScenarioA (Or.inl rfl)

/-- C7: posting a duplicate invoice number answers 409 and persists
nothing; on any non-created outcome both tables are unchanged (a failed
items insert rolls the header back), and a created outcome always
persists item rows for the new header. -/
theorem post_duplicate_conflict_and_rollback :
    ∀ (db : Database) (body : PostBody) (itemsFail : Bool),
      ((db.invoices.any fun r =>
          r.invoice_number == body.invoice_number) = true →
        missingRequired body = false →
        postInvoices db body itemsFail =
          ({ status := 409, success := false }, db)) ∧
      ((∀ r ∈ db.invoices, r.id ≠ db.nextId) →
        (∀ r ∈ db.invoice_items, r.invoice_id ≠ db.nextId) →
        (postInvoices db body itemsFail).1.status ≠ 201 →
        (postInvoices db body itemsFail).2.invoices = db.invoices ∧
          (postInvoices db body itemsFail).2.invoice_items =
            db.invoice_items) ∧
      ((postInvoices db body itemsFail).1.status = 201 →
        ∃ r ∈ (postInvoices db body itemsFail).2.invoice_items,
          r.invoice_id = db.nextId) := by
  intro db body itemsFail
  by_cases hm : missingRequired body = true
  · have heq : postInvoices db body itemsFail =
        ({ status := 400, success := false }, db) := by
      simp [postInvoices, hm]
    rw [heq]
    refine ⟨?_, fun _ _ _ => ⟨rfl, rfl⟩, ?_⟩
    · intro _ hmf
      rw [hmf] at hm
      cases hm
    · intro h
      simp at h
  · have hm' : missingRequired body = false := by
      cases h : missingRequired body with
      | false => rfl
      | true => exact absurd h hm
    by_cases hdup : (db.invoices.any fun r =>
        r.invoice_number == body.invoice_number) = true
    · have heq : postInvoices db body itemsFail =
          ({ status := 409, success := false }, db) := by
        simp [postInvoices, hm', invoicesInsert, newHeader, hdup]
      rw [heq]
      refine ⟨fun _ _ => rfl, fun _ _ _ => ⟨rfl, rfl⟩, ?_⟩
      intro h
      simp at h
    · have hdup' : (db.invoices.any fun r =>
          r.invoice_number == body.invoice_number) = false := by
        cases h : (db.invoices.any fun r =>
            r.invoice_number == body.invoice_number) with
        | false => rfl
        | true => exact absurd h hdup
      cases itemsFail with
      | true =>
        have heq : postInvoices db body true =
            ({ status := 500, success := false },
              invoicesDelete
                { db with nextId := db.nextId + 1,
                          invoices := db.invoices ++ [newHeader db body] }
                db.nextId) := by
          simp [postInvoices, hm', invoicesInsert, newHeader, hdup',
            itemsInsert]
        rw [heq]
        refine ⟨?_, ?_, ?_⟩
        · intro hany _
          rw [hany] at hdup'
          cases hdup'
        · intro hids hitems _
          constructor
          · show (db.invoices ++ [newHeader db body]).filter
                (fun r => r.id != db.nextId) = db.invoices
            rw [List.filter_append]
            have hkeep : db.invoices.filter
                (fun r => r.id != db.nextId) = db.invoices :=
              List.filter_eq_self.mpr
                (fun r hr => by simpa [bne_iff_ne] using hids r hr)
            have hdrop : [newHeader db body].filter
                (fun r => r.id != db.nextId) = [] := by
              simp [newHeader]
            rw [hkeep, hdrop, List.append_nil]
          · show db.invoice_items.filter
                (fun r => r.invoice_id != db.nextId) = db.invoice_items
            exact List.filter_eq_self.mpr
              (fun r hr => by simpa [bne_iff_ne] using hitems r hr)
        · intro h
          simp at h
      | false =>
        have heq : postInvoices db body false =
            ({ status := 201, success := true },
              { nextId := db.nextId + 1,
                invoices := db.invoices ++ [newHeader db body],
                invoice_items :=
                  db.invoice_items ++ newItemRows db.nextId body }) := by
          simp [postInvoices, hm', invoicesInsert, newHeader, hdup',
            itemsInsert, newItemRows]
        rw [heq]
        refine ⟨?_, ?_, ?_⟩
        · intro hany _
          rw [hany] at hdup'
          cases hdup'
        · intro _ _ h
          exact absurd rfl h
        · intro _
          have hne : (body.items.getD []).length ≠ 0 := by
            intro hlen
            simp [missingRequired, hlen] at hm'
          obtain ⟨it, hit⟩ := List.exists_mem_of_ne_nil
            (body.items.getD []) (fun hnil => hne (by simp [hnil]))
          refine ⟨{ invoice_id := db.nextId, item_id := it.id,
                    name := it.name, quantity := it.quantity,
                    rate := it.rate, total := it.quantity * it.rate },
            ?_, rfl⟩
          exact List.mem_append_right _
            (List.mem_map_of_mem _ hit)

/-- Witness for the POST handler theorem at concrete store states: the
duplicate body answers 409 and leaves the one-invoice store unchanged;
with a fresh number and a failing items insert both tables are
unchanged; with a fresh number and a succeeding items insert an item
row for the new id is persisted. -/
theorem post_duplicate_conflict_and_rollback_witness :
    postInvoices dbW bodyW false =
      ({ status := 409, success := false }, dbW) ∧
    ((postInvoices dbW bodyW2 true).2.invoices = dbW.invoices ∧
      (postInvoices dbW bodyW2 true).2.invoice_items =
        dbW.invoice_items) ∧
    (∃ r ∈ (postInvoices dbW bodyW2 false).2.invoice_items,
      r.invoice_id = dbW.nextId) :=
  ⟨(post_duplicate_conflict_and_rollback dbW bodyW false).1
      (by decide) (by decide),
    (post_duplicate_conflict_and_rollback dbW bodyW2 true).2.1
      (by decide) (by decide) (by decide),
    (post_duplicate_conflict_and_rollback dbW bodyW2 false).2.2
      (by decide)⟩

end Invoice
